import Mathlib

/-!
Shallow embedding of the influmojo-backend phone-verification flow and
profile routes (src/src/routes/auth.js and the profile router), together
with proofs of the testable properties stated in the spec.

Timestamps are integers (milliseconds since the epoch, as produced by
`Date.now()`).  Database state is an explicit record of row lists; each
handler is a pure function from configuration, external-call outcomes and
state to a response plus a new state.  Randomness (`Math.random()`), the
crypto token and the Twilio outcomes are passed in as parameters.
-/

namespace Influmojo

/-- A row of the `PhoneVerification` table: phone, 6-digit code, opaque
token, creation and expiry timestamps, nullable verification timestamp. -/
structure PhoneVerification where
  id : Nat
  phone : String
  code : String
  token : String
  created_at : Int
  expires_at : Int
  verified_at : Option Int
deriving Repr, DecidableEq

/-- A row of the `User` table (the fields this flow reads or writes). -/
structure User where
  id : Nat
  phone : Option String
  email : Option String
  name : String
  phone_verified : Bool
  email_verified : Bool
  user_type : String
  status : String
  last_login_at : Option Int
deriving Repr, DecidableEq

/-- Database state seen by the auth router. -/
structure AuthState where
  verifications : List PhoneVerification
  users : List User
  nextVerificationId : Nat
  nextUserId : Nat
deriving Repr, DecidableEq

/-- The three Twilio environment secrets
(`TWILIO_ACCOUNT_SID`, `TWILIO_AUTH_TOKEN`, `TWILIO_VERIFY_SERVICE_SID`). -/
structure TwilioConfig where
  accountSid : Option String
  authToken : Option String
  verifyServiceSid : Option String
deriving Repr, DecidableEq

/-- JS truthiness of an environment variable (unset or empty is falsy). -/
def envTruthy : Option String → Bool
  | none => false
  | some s => s ≠ ""

/-- Conjunction `process.env.TWILIO_ACCOUNT_SID && process.env.TWILIO_AUTH_TOKEN
&& process.env.TWILIO_VERIFY_SERVICE_SID`: all three secrets present. -/
def twilioConfigured (c : TwilioConfig) : Bool :=
  envTruthy c.accountSid && envTruthy c.authToken && envTruthy c.verifyServiceSid

/-- A `TwilioConfig` with no secret set (provider not configured). -/
def noTwilio : TwilioConfig := { accountSid := none, authToken := none, verifyServiceSid := none }

/-- Outcome of the provider `verifications.create` call in send-code:
either the SMS was dispatched or the call threw with an HTTP status. -/
inductive TwilioSendOutcome where
  | sent
  | failed (status : Nat)
deriving Repr, DecidableEq

/-- Outcome of the provider `verificationChecks.create` call in verify-code:
either a returned decision (the `status` string of the check, e.g.
"approved" or "pending") or a thrown error with an HTTP status. -/
inductive TwilioCheckOutcome where
  | decision (status : String)
  | raised (status : Nat)
deriving Repr, DecidableEq

/-- The value `Math.floor(100000 + Math.random() * 900000)` for a random
source value `r` drawn from `[0, 1)`. -/
def generateOtp (r : ℚ) : Nat :=
  (Int.floor ((100000 : ℚ) + r * 900000)).toNat

/-- The generated OTP converted to a string (`.toString()`). -/
def otpString (r : ℚ) : String :=
  toString (generateOtp r)

/-- The JSON response of `POST /api/auth/send-phone-verification-code`. -/
structure SendResponse where
  status : Nat
  success : Bool
  error : Option String
  message : Option String
  phone : Option String
deriving Repr, DecidableEq

/-- Result of the send-code handler: the HTTP response, the database state
afterwards, and two effect flags (whether an OTP row was generated and
whether a provider dispatch was attempted). -/
structure SendResult where
  response : SendResponse
  state : AuthState
  otpGenerated : Bool
  smsAttempted : Bool
deriving Repr, DecidableEq

/-- The cooldown predicate of send-code: some `PhoneVerification` row for
this phone was created in the last 60 seconds
(`created_at: { gt: new Date(Date.now() - 60 * 1000) }`). -/
def hasRecentVerification (st : AuthState) (now : Int) (phone : String) : Prop :=
  ∃ v ∈ st.verifications, v.phone = phone ∧ now - 60 * 1000 < v.created_at

instance instDecRecent (st : AuthState) (now : Int) (phone : String) :
    Decidable (hasRecentVerification st now phone) := by
  unfold hasRecentVerification; exact inferInstance

/-- Handler of `POST /api/auth/send-phone-verification-code` (auth.js).
`r` is the `Math.random()` draw, `tok` the crypto token, `sms` the outcome
the provider call would have.  After the cooldown check the row is stored;
SMS dispatch is attempted only when the provider is configured, and its
outcome — success, failure, or rate limit — is only logged, never surfaced:
the response is built the same way in every branch. -/
def sendPhoneVerificationCode (cfg : TwilioConfig) (sms : TwilioSendOutcome)
    (st : AuthState) (now : Int) (phone : String) (r : ℚ) (tok : String) :
    SendResult :=
  if hasRecentVerification st now phone then
    { response := { status := 429, success := false,
                    error := some "Please wait 1 minute before requesting another code",
                    message := none, phone := none },
      state := st, otpGenerated := false, smsAttempted := false }
  else
    let otp := otpString r
    let row : PhoneVerification :=
      { id := st.nextVerificationId, phone := phone, code := otp, token := tok,
        created_at := now, expires_at := now + 10 * 60 * 1000, verified_at := none }
    let st1 : AuthState :=
      { st with verifications := row :: st.verifications,
                nextVerificationId := st.nextVerificationId + 1 }
    let attempted := twilioConfigured cfg
    { response := { status := 200, success := true, error := none,
                    message := some "Verification code sent successfully",
                    phone := some phone },
      state := st1, otpGenerated := true, smsAttempted := attempted }

/-- The session token issued on success: `jwt.sign({ userId, iat }, ...)`
with a 7-day expiry (the signature itself is out of scope). -/
structure SessionToken where
  userId : String
  iat : Int
deriving Repr, DecidableEq

/-- The `generateToken` helper of auth.js. -/
def generateToken (userId : Nat) (now : Int) : SessionToken :=
  { userId := toString userId, iat := now }

/-- The user summary returned by verify-code. -/
structure VerifyUser where
  id : String
  phone : Option String
  name : String
  isVerified : Bool
deriving Repr, DecidableEq

/-- The JSON response of `POST /api/auth/verify-phone-code`. -/
structure VerifyResponse where
  status : Nat
  success : Bool
  error : Option String
  message : Option String
  user : Option VerifyUser
  token : Option SessionToken
deriving Repr, DecidableEq

/-- Result of the verify-code handler. -/
structure VerifyResult where
  response : VerifyResponse
  state : AuthState
deriving Repr, DecidableEq

/-- The local fallback predicate of verify-code: the row matches the phone
and code, is unexpired (`expires_at: { gt: new Date() }`) and unverified
(`verified_at: null`). -/
def localMatch (phone code : String) (now : Int) (v : PhoneVerification) : Prop :=
  v.phone = phone ∧ v.code = code ∧ v.expires_at > now ∧ v.verified_at = none

instance instDecLocalMatch (phone code : String) (now : Int) (v : PhoneVerification) :
    Decidable (localMatch phone code now v) := by
  unfold localMatch; exact inferInstance

/-- Prisma `findFirst` with descending `orderBy` on created_at: among the rows
satisfying the fallback predicate, the one with the greatest `created_at`
(none when no row matches). -/
def findLatestVerification (phone code : String) (now : Int)
    (rows : List PhoneVerification) : Option PhoneVerification :=
  (rows.filter (fun v => localMatch phone code now v)).argmax PhoneVerification.created_at

/-- Prisma `update` setting `verified_at = new Date()` on the row with this id. -/
def markVerified (id : Nat) (now : Int) (rows : List PhoneVerification) :
    List PhoneVerification :=
  rows.map (fun v => if v.id = id then { v with verified_at := some now } else v)

/-- JS truthiness of the optional `fullName` field: `undefined` and the
empty string are falsy. -/
def truthyName : Option String → Option String
  | none => none
  | some s => if s = "" then none else some s

/-- The user find-or-create step of verify-code: look the user up by
phone; create it with `phone_verified = true` and name
`fullName` (defaulting to "User") when absent, otherwise update `phone_verified`,
`last_login_at` and (only when `fullName` is truthy) `name`. -/
def findOrCreateUserByPhone (st : AuthState) (now : Int) (phone : String)
    (fullName : Option String) : User × AuthState :=
  match st.users.find? (fun u => u.phone = some phone) with
  | none =>
      let u : User :=
        { id := st.nextUserId, phone := some phone, email := none,
          name := (truthyName fullName).getD "User",
          phone_verified := true, email_verified := false,
          user_type := "creator", status := "active", last_login_at := none }
      (u, { st with users := st.users ++ [u], nextUserId := st.nextUserId + 1 })
  | some u0 =>
      let u : User :=
        { u0 with phone_verified := true, last_login_at := some now,
                  name := (truthyName fullName).getD u0.name }
      (u, { st with users := st.users.map (fun w => if w.id = u0.id then u else w) })

/-- The 400 response carrying "Invalid verification code". -/
def invalidCodeResponse : VerifyResponse :=
  { status := 400, success := false, error := some "Invalid verification code",
    message := none, user := none, token := none }

/-- The 400 response carrying "Invalid or expired verification code". -/
def invalidOrExpiredResponse : VerifyResponse :=
  { status := 400, success := false, error := some "Invalid or expired verification code",
    message := none, user := none, token := none }

/-- The tail of verify-code after verification succeeded (either path):
find-or-create the user by phone, issue the session token, respond 200. -/
def finishVerified (st : AuthState) (now : Int) (phone : String)
    (fullName : Option String) : VerifyResult :=
  let p := findOrCreateUserByPhone st now phone fullName
  let u := p.1
  let st1 := p.2
  { response := { status := 200, success := true, error := none,
                  message := some "Phone verification successful",
                  user := some { id := toString u.id, phone := u.phone, name := u.name,
                                 isVerified := u.phone_verified },
                  token := some (generateToken u.id now) },
    state := st1 }

/-- Handler of `POST /api/auth/verify-phone-code` (auth.js).  When the
provider is configured, a returned non-approved decision fails at once
with `invalidCodeResponse`; a returned approved decision sets
`twilioVerification` and skips the local check; a thrown provider error
only logs and leaves `twilioVerification` false.  When not
provider-verified, the most recent matching unexpired unverified row is
looked up; none means `invalidOrExpiredResponse`, otherwise the row is
marked verified.  Then the user is found-or-created and a token issued. -/
def verifyPhoneCode (cfg : TwilioConfig) (check : TwilioCheckOutcome)
    (st : AuthState) (now : Int) (phone code : String) (fullName : Option String) :
    VerifyResult :=
  let step :=
    if twilioConfigured cfg then
      match check with
      | .decision s => if s = "approved" then some true else none
      | .raised _ => some false
    else some false
  match step with
  | none => { response := invalidCodeResponse, state := st }
  | some twilioVerification =>
    if twilioVerification then
      finishVerified st now phone fullName
    else
      match findLatestVerification phone code now st.verifications with
      | none => { response := invalidOrExpiredResponse, state := st }
      | some v =>
          let st1 : AuthState :=
            { st with verifications := markVerified v.id now st.verifications }
          finishVerified st1 now phone fullName

/-! ### Bearer tokens and the profile router -/

/-- A bearer token as the handlers see it: the payload it decodes to, the
secret it was signed with, and whether it is expired.  `jwt.verify`
succeeds exactly when the secret matches and the token is unexpired;
otherwise it throws (malformed, expired and wrong-secret all throw). -/
structure Jwt where
  userId : String
  secret : String
  expired : Bool
deriving Repr, DecidableEq

/-- Verification `jwt.verify(token, secret)`: `some payload.userId` on success, `none`
when verification throws. -/
def jwtVerify (secret : String) (t : Jwt) : Option String :=
  if t.secret = secret ∧ t.expired = false then some t.userId else none

/-- A JSON response carrying only a status and optional error. -/
structure SimpleResponse where
  status : Nat
  success : Bool
  error : Option String
deriving Repr, DecidableEq

/-- Result of `POST /api/auth/update-name`. -/
structure UpdateNameResult where
  response : SimpleResponse
  state : AuthState
deriving Repr, DecidableEq

/-- Handler of `POST /api/auth/update-name` (auth.js).  A missing token
returns 401; a present token is decoded inside the handler body,
so a failing `jwt.verify` throws into the generic catch, which responds
500 "Failed to update name" — not 401.  A missing user row also throws
into the same catch. -/
def updateName (secret : String) (auth : Option Jwt) (st : AuthState)
    (name : String) : UpdateNameResult :=
  match auth with
  | none =>
      { response := { status := 401, success := false, error := some "No token provided" },
        state := st }
  | some t =>
    match jwtVerify secret t with
    | none =>
        { response := { status := 500, success := false, error := some "Failed to update name" },
          state := st }
    | some uid =>
      match st.users.find? (fun u => toString u.id = uid) with
      | none =>
          { response := { status := 500, success := false, error := some "Failed to update name" },
            state := st }
      | some u0 =>
          let users := st.users.map (fun w => if w.id = u0.id then { u0 with name := name } else w)
          { response := { status := 200, success := true, error := none },
            state := { st with users := users } }

/-- Handler of `GET /api/auth/profile` (auth.js).  A missing token returns
401; a failing `jwt.verify` throws into the catch, which responds 401
"Invalid token"; a missing user row responds 404. -/
def getAuthProfile (secret : String) (auth : Option Jwt) (st : AuthState) :
    SimpleResponse :=
  match auth with
  | none => { status := 401, success := false, error := some "No token provided" }
  | some t =>
    match jwtVerify secret t with
    | none => { status := 401, success := false, error := some "Invalid token" }
    | some uid =>
      match st.users.find? (fun u => toString u.id = uid) with
      | none => { status := 404, success := false, error := some "User not found" }
      | some _ => { status := 200, success := true, error := none }

/-- Outcome of the `authenticateToken` middleware of the profile router:
either an early 401 response or the decoded user id passed to the
handler. -/
inductive AuthCheck where
  | reject (resp : SimpleResponse)
  | allow (userId : String)
deriving Repr, DecidableEq

/-- The `authenticateToken` middleware: 401 "No token provided" without
a token, 401 "Invalid token" when `jwt.verify` throws, else pass the
decoded userId on. -/
def authenticateToken (secret : String) (auth : Option Jwt) : AuthCheck :=
  match auth with
  | none => .reject { status := 401, success := false, error := some "No token provided" }
  | some t =>
    match jwtVerify secret t with
    | none => .reject { status := 401, success := false, error := some "Invalid token" }
    | some uid => .allow uid

/-- A row of the `CreatorProfile` table (the fields the embedded profile
handlers read: its id and owning user id). -/
structure CreatorProfile where
  id : Nat
  user_id : Nat
deriving Repr, DecidableEq

/-- A row of the `Package` table. -/
structure Package where
  id : Nat
  creator_id : Nat
  package_type : String
  title : String
  description : String
  platform : String
  content_type : String
  quantity : Nat
  revisions : Nat
  duration : String
  price : ℚ
  currency : String
  status : String
deriving Repr, DecidableEq

/-- A row of the `PortfolioItem` table. -/
structure PortfolioItem where
  id : Nat
  creator_id : Nat
  media_type : String
  media_url : String
  title : String
  description : String
  file_size : Nat
  mime_type : String
  status : String
deriving Repr, DecidableEq

/-- A row of the `KYC` table (1:1 with CreatorProfile). -/
structure KYC where
  id : Nat
  creator_id : Nat
  document_type : String
  document_front_url : String
  document_back_url : String
  status : String
  submitted_at : Option Int
deriving Repr, DecidableEq

/-- Database state seen by the profile router. -/
structure ProfileState where
  creatorProfiles : List CreatorProfile
  packages : List Package
  portfolioItems : List PortfolioItem
  kycs : List KYC
  nextId : Nat
deriving Repr, DecidableEq

/-- Result of a profile-router handler. -/
structure ProfileResult where
  response : SimpleResponse
  state : ProfileState
deriving Repr, DecidableEq

/-- Lookup `prisma.creatorProfile.findUnique` keyed by `user_id`. -/
def findCreatorProfile (st : ProfileState) (userId : Nat) : Option CreatorProfile :=
  st.creatorProfiles.find? (fun c => c.user_id = userId)

/-- The response the three creation handlers give when the user has no
creator profile: status 400 with "Creator profile not found". -/
def profileNotFoundResponse : SimpleResponse :=
  { status := 400, success := false, error := some "Creator profile not found" }

/-- The validated body of `POST /api/profile/create-package`. -/
structure PackageBody where
  platform : String
  contentType : String
  quantity : Nat
  revisions : Nat
  duration1 : String
  duration2 : String
  price : ℚ
  description : Option String
deriving Repr, DecidableEq

/-- Handler body of `POST /api/profile/create-package` (after middleware):
look the creator profile up; respond 400 "Creator profile not found"
and change nothing when absent; otherwise insert the Package row with
currency "INR" and status "active". -/
def createPackage (st : ProfileState) (userId : Nat) (b : PackageBody) :
    ProfileResult :=
  match findCreatorProfile st userId with
  | none => { response := profileNotFoundResponse, state := st }
  | some cp =>
      let pkg : Package :=
        { id := st.nextId, creator_id := cp.id, package_type := "content",
          title := b.platform ++ " " ++ b.contentType,
          description := b.description.getD "",
          platform := b.platform.toUpper, content_type := b.contentType,
          quantity := b.quantity, revisions := b.revisions,
          duration := b.duration1 ++ " " ++ b.duration2,
          price := b.price, currency := "INR", status := "active" }
      { response := { status := 200, success := true, error := none },
        state := { st with packages := st.packages ++ [pkg], nextId := st.nextId + 1 } }

/-- The validated body of `POST /api/profile/create-portfolio`. -/
structure PortfolioBody where
  mediaUrl : String
  mediaType : String
  fileName : String
  fileSize : Nat
  mimeType : Option String
deriving Repr, DecidableEq

/-- Handler body of `POST /api/profile/create-portfolio`: same guard as
create-package, then insert the PortfolioItem row. -/
def createPortfolio (st : ProfileState) (userId : Nat) (b : PortfolioBody) :
    ProfileResult :=
  match findCreatorProfile st userId with
  | none => { response := profileNotFoundResponse, state := st }
  | some cp =>
      let item : PortfolioItem :=
        { id := st.nextId, creator_id := cp.id,
          media_type := b.mediaType.toUpper, media_url := b.mediaUrl,
          title := b.fileName,
          description := "Uploaded file: " ++ b.fileName,
          file_size := b.fileSize, mime_type := b.mimeType.getD "",
          status := "active" }
      { response := { status := 200, success := true, error := none },
        state := { st with portfolioItems := st.portfolioItems ++ [item],
                           nextId := st.nextId + 1 } }

/-- The validated body of `POST /api/profile/submit-kyc`. -/
structure KycBody where
  documentType : String
  frontImageUrl : String
  backImageUrl : String
deriving Repr, DecidableEq

/-- Handler body of `POST /api/profile/submit-kyc`: same guard, then
upsert the KYC row keyed by creator id with status "pending". -/
def submitKyc (st : ProfileState) (userId : Nat) (b : KycBody) (now : Int) :
    ProfileResult :=
  match findCreatorProfile st userId with
  | none => { response := profileNotFoundResponse, state := st }
  | some cp =>
      let newKycs :=
        if st.kycs.any (fun k => k.creator_id = cp.id) then
          st.kycs.map (fun k =>
            if k.creator_id = cp.id then
              { k with document_type := b.documentType.toUpper,
                       document_front_url := b.frontImageUrl,
                       document_back_url := b.backImageUrl,
                       status := "pending", submitted_at := some now }
            else k)
        else
          st.kycs ++ [{ id := st.nextId, creator_id := cp.id,
                        document_type := b.documentType.toUpper,
                        document_front_url := b.frontImageUrl,
                        document_back_url := b.backImageUrl,
                        status := "pending", submitted_at := some now }]
      { response := { status := 200, success := true, error := none },
        state := { st with kycs := newKycs,
                           nextId := if st.kycs.any (fun k => k.creator_id = cp.id)
                                     then st.nextId else st.nextId + 1 } }

/-- Conversion `BigInt(req.userId)`: parse the decoded userId string; a non-numeric
string throws into the handler catch (modelled as `none`). -/
def parseUserId (s : String) : Option Nat := s.toNat?

/-- The full `POST /api/profile/create-package` route: middleware, then
`BigInt` parse (throwing into the 500 catch), then the handler body. -/
def postCreatePackage (secret : String) (auth : Option Jwt) (st : ProfileState)
    (b : PackageBody) : ProfileResult :=
  match authenticateToken secret auth with
  | .reject r => { response := r, state := st }
  | .allow uid =>
    match parseUserId uid with
    | none =>
        { response := { status := 500, success := false,
                        error := some "Failed to create package" },
          state := st }
    | some n => createPackage st n b

/-- The full `POST /api/profile/create-portfolio` route. -/
def postCreatePortfolio (secret : String) (auth : Option Jwt) (st : ProfileState)
    (b : PortfolioBody) : ProfileResult :=
  match authenticateToken secret auth with
  | .reject r => { response := r, state := st }
  | .allow uid =>
    match parseUserId uid with
    | none =>
        { response := { status := 500, success := false,
                        error := some "Failed to create portfolio item" },
          state := st }
    | some n => createPortfolio st n b

/-- The full `POST /api/profile/submit-kyc` route. -/
def postSubmitKyc (secret : String) (auth : Option Jwt) (st : ProfileState)
    (b : KycBody) (now : Int) : ProfileResult :=
  match authenticateToken secret auth with
  | .reject r => { response := r, state := st }
  | .allow uid =>
    match parseUserId uid with
    | none =>
        { response := { status := 500, success := false,
                        error := some "Failed to submit KYC" },
          state := st }
    | some n => submitKyc st n b now

/-! ### Concrete demonstration values (used by witnesses) -/

/-- A stored, unexpired, unverified verification row. -/
def demoRow : PhoneVerification :=
  { id := 1, phone := "+15551234567", code := "482913", token := "tk0",
    created_at := 1000000, expires_at := 1600000, verified_at := none }

/-- An auth-database state holding just `demoRow`. -/
def st0 : AuthState :=
  { verifications := [demoRow], users := [], nextVerificationId := 2, nextUserId := 1 }

/-- An empty auth-database state. -/
def emptyAuthState : AuthState :=
  { verifications := [], users := [], nextVerificationId := 1, nextUserId := 1 }

/-- A configuration with all three Twilio secrets present. -/
def fullTwilio : TwilioConfig :=
  { accountSid := some "AC123", authToken := some "tok", verifyServiceSid := some "VA123" }

/-- A token signed with a secret other than the one the server uses. -/
def badJwt : Jwt := { userId := "1", secret := "wrong", expired := false }

/-- An empty profile-database state. -/
def emptyProfileState : ProfileState :=
  { creatorProfiles := [], packages := [], portfolioItems := [], kycs := [], nextId := 1 }

/-- A validated create-package body. -/
def demoPackageBody : PackageBody :=
  { platform := "instagram", contentType := "reel", quantity := 3, revisions := 1,
    duration1 := "30", duration2 := "seconds", price := 499.99, description := none }

/-- A validated create-portfolio body. -/
def demoPortfolioBody : PortfolioBody :=
  { mediaUrl := "https://cdn.example/x.png", mediaType := "image",
    fileName := "x.png", fileSize := 1024, mimeType := some "image/png" }

/-- A validated submit-kyc body. -/
def demoKycBody : KycBody :=
  { documentType := "aadhaar", frontImageUrl := "https://cdn.example/f.png",
    backImageUrl := "https://cdn.example/b.png" }

/-! ### Helper lemmas -/

lemma findOrCreate_verifications (st : AuthState) (now : Int) (phone : String)
    (fn : Option String) :
    (findOrCreateUserByPhone st now phone fn).2.verifications = st.verifications := by
  unfold findOrCreateUserByPhone
  split <;> rfl

lemma finishVerified_verifications (st : AuthState) (now : Int) (phone : String)
    (fn : Option String) :
    (finishVerified st now phone fn).state.verifications = st.verifications := by
  unfold finishVerified
  exact findOrCreate_verifications st now phone fn

lemma findOrCreate_user (st : AuthState) (now : Int) (phone : String) (fn : Option String) :
    (findOrCreateUserByPhone st now phone fn).1 ∈ (findOrCreateUserByPhone st now phone fn).2.users ∧
    (findOrCreateUserByPhone st now phone fn).1.phone = some phone ∧
    (findOrCreateUserByPhone st now phone fn).1.phone_verified = true := by
  unfold findOrCreateUserByPhone
  cases h : st.users.find? (fun u => u.phone = some phone) with
  | none => simp
  | some u0 =>
    have hp : u0.phone = some phone := by
      have := List.find?_some h
      simpa using this
    have hm : u0 ∈ st.users := List.mem_of_find?_eq_some h
    refine ⟨?_, hp, rfl⟩
    simp only [List.mem_map]
    exact ⟨u0, hm, by simp⟩

lemma findLatest_mem {phone code : String} {now : Int} {rows : List PhoneVerification}
    {v : PhoneVerification} (h : findLatestVerification phone code now rows = some v) :
    v ∈ rows ∧ localMatch phone code now v := by
  unfold findLatestVerification at h
  have hmem := List.argmax_mem (Option.mem_def.mpr h)
  rw [List.mem_filter] at hmem
  exact ⟨hmem.1, by simpa using hmem.2⟩

lemma findLatest_eq_none_iff {phone code : String} {now : Int}
    {rows : List PhoneVerification} :
    findLatestVerification phone code now rows = none ↔
      ∀ v ∈ rows, ¬ localMatch phone code now v := by
  unfold findLatestVerification
  rw [List.argmax_eq_none, List.filter_eq_nil_iff]
  simp

/-! ### Claims -/

/-- C3: request-code is rejected with a 429 rate-limit error whenever a
PhoneVerification row for this phone was created within the last 60
seconds; in particular, after a successful request-code at time `now`, a
second request-code within 60 seconds answers 429. -/
theorem request_code_cooldown_429
    (cfg cfg' : TwilioConfig) (sms sms' : TwilioSendOutcome)
    (st : AuthState) (now now2 : Int) (phone : String) (r r' : ℚ) (tok tok' : String) :
    (hasRecentVerification st now phone →
      (sendPhoneVerificationCode cfg sms st now phone r tok).response.status = 429 ∧
      (sendPhoneVerificationCode cfg sms st now phone r tok).response.error =
        some "Please wait 1 minute before requesting another code") ∧
    (¬ hasRecentVerification st now phone → now2 < now + 60 * 1000 →
      (sendPhoneVerificationCode cfg' sms'
        (sendPhoneVerificationCode cfg sms st now phone r tok).state
        now2 phone r' tok').response.status = 429) := by
  constructor
  · intro hrec
    unfold sendPhoneVerificationCode
    rw [if_pos hrec]
    exact ⟨rfl, rfl⟩
  · intro hok hlt
    have hstate : (sendPhoneVerificationCode cfg sms st now phone r tok).state.verifications =
        { id := st.nextVerificationId, phone := phone, code := otpString r, token := tok,
          created_at := now, expires_at := now + 10 * 60 * 1000,
          verified_at := none } :: st.verifications := by
      unfold sendPhoneVerificationCode
      rw [if_neg hok]
    have hrec2 : hasRecentVerification
        (sendPhoneVerificationCode cfg sms st now phone r tok).state now2 phone := by
      refine ⟨_, by rw [hstate]; exact List.mem_cons_self _ _, rfl, ?_⟩
      show now2 - 60 * 1000 < now
      omega
    have h429 : ∀ (c : TwilioConfig) (o : TwilioSendOutcome) (s2 : AuthState),
        hasRecentVerification s2 now2 phone →
        (sendPhoneVerificationCode c o s2 now2 phone r' tok').response.status = 429 := by
      intro c o s2 h
      unfold sendPhoneVerificationCode
      rw [if_pos h]
    exact h429 cfg' sms' _ hrec2

/-- C3 witness: with `demoRow` created at 1000000, a request at 1000001 is
rejected 429; and starting from an empty database, a request at 1000000
followed by one at 1000001 has the second answer 429. -/
theorem request_code_cooldown_429_witness :
    ((sendPhoneVerificationCode noTwilio .sent st0 1000001 "+15551234567" (1/2) "tk1").response.status = 429 ∧
     (sendPhoneVerificationCode noTwilio .sent st0 1000001 "+15551234567" (1/2) "tk1").response.error =
       some "Please wait 1 minute before requesting another code") ∧
    (sendPhoneVerificationCode noTwilio .sent
      (sendPhoneVerificationCode noTwilio .sent emptyAuthState 1000000 "+15551234567" (1/2) "tk1").state
      1000001 "+15551234567" (1/3) "tk2").response.status = 429 :=
  ⟨(request_code_cooldown_429 noTwilio noTwilio .sent .sent st0 1000001 0 "+15551234567"
      (1/2) (1/2) "tk1" "tk1").1 (by decide),
   (request_code_cooldown_429 noTwilio noTwilio .sent .sent emptyAuthState 1000000 1000001
      "+15551234567" (1/2) (1/3) "tk1" "tk2").2 (by decide) (by decide)⟩

/-- C6: once the cooldown guard passes, the response of request-code is
the fixed success payload, independent of the provider configuration and
of the SMS dispatch outcome, and the stored state is the same in the
SMS-sent, SMS-failed and not-configured cases. -/
theorem request_code_response_ignores_sms_outcome
    (cfg cfg' : TwilioConfig) (sms sms' : TwilioSendOutcome)
    (st : AuthState) (now : Int) (phone : String) (r : ℚ) (tok : String)
    (hok : ¬ hasRecentVerification st now phone) :
    (sendPhoneVerificationCode cfg sms st now phone r tok).response =
      { status := 200, success := true, error := none,
        message := some "Verification code sent successfully", phone := some phone } ∧
    (sendPhoneVerificationCode cfg sms st now phone r tok).response =
      (sendPhoneVerificationCode cfg' sms' st now phone r tok).response ∧
    (sendPhoneVerificationCode cfg sms st now phone r tok).state =
      (sendPhoneVerificationCode cfg' sms' st now phone r tok).state := by
  unfold sendPhoneVerificationCode
  simp only [if_neg hok]
  refine ⟨?_, ?_, ?_⟩ <;> first
    | rfl
    | trivial

/-- C6 witness: on an empty database the response is the success payload
whether the provider is configured and the SMS fails with a 429, or the
provider is absent. -/
theorem request_code_response_ignores_sms_outcome_witness :
    (sendPhoneVerificationCode fullTwilio (.failed 429) emptyAuthState 1000000
        "+15551234567" (1/2) "tk1").response =
      { status := 200, success := true, error := none,
        message := some "Verification code sent successfully", phone := some "+15551234567" } ∧
    (sendPhoneVerificationCode fullTwilio (.failed 429) emptyAuthState 1000000
        "+15551234567" (1/2) "tk1").response =
      (sendPhoneVerificationCode noTwilio .sent emptyAuthState 1000000
        "+15551234567" (1/2) "tk1").response ∧
    (sendPhoneVerificationCode fullTwilio (.failed 429) emptyAuthState 1000000
        "+15551234567" (1/2) "tk1").state =
      (sendPhoneVerificationCode noTwilio .sent emptyAuthState 1000000
        "+15551234567" (1/2) "tk1").state :=
  request_code_response_ignores_sms_outcome fullTwilio noTwilio (.failed 429) .sent
    emptyAuthState 1000000 "+15551234567" (1/2) "tk1" (by decide)

/-- C10: when the cooldown guard fires, request-code answers 429 with the
database unchanged, no OTP generated and no SMS dispatch attempted. -/
theorem request_code_cooldown_no_side_effects
    (cfg : TwilioConfig) (sms : TwilioSendOutcome)
    (st : AuthState) (now : Int) (phone : String) (r : ℚ) (tok : String)
    (hrec : hasRecentVerification st now phone) :
    (sendPhoneVerificationCode cfg sms st now phone r tok).state = st ∧
    (sendPhoneVerificationCode cfg sms st now phone r tok).otpGenerated = false ∧
    (sendPhoneVerificationCode cfg sms st now phone r tok).smsAttempted = false ∧
    (sendPhoneVerificationCode cfg sms st now phone r tok).response.status = 429 := by
  unfold sendPhoneVerificationCode
  rw [if_pos hrec]
  exact ⟨rfl, rfl, rfl, rfl⟩

/-- C10 witness: at 1000001, one second after `demoRow` was created, the
state is unchanged and no OTP or dispatch happens. -/
theorem request_code_cooldown_no_side_effects_witness :
    (sendPhoneVerificationCode fullTwilio .sent st0 1000001 "+15551234567" (1/2) "tk1").state = st0 ∧
    (sendPhoneVerificationCode fullTwilio .sent st0 1000001 "+15551234567" (1/2) "tk1").otpGenerated = false ∧
    (sendPhoneVerificationCode fullTwilio .sent st0 1000001 "+15551234567" (1/2) "tk1").smsAttempted = false ∧
    (sendPhoneVerificationCode fullTwilio .sent st0 1000001 "+15551234567" (1/2) "tk1").response.status = 429 :=
  request_code_cooldown_no_side_effects fullTwilio .sent st0 1000001 "+15551234567"
    (1/2) "tk1" (by decide)

lemma verify_fallback_none (cfg : TwilioConfig) (check : TwilioCheckOutcome)
    (st : AuthState) (now : Int) (phone code : String) (fn : Option String)
    (hcfg : twilioConfigured cfg = false)
    (hnone : findLatestVerification phone code now st.verifications = none) :
    verifyPhoneCode cfg check st now phone code fn =
      { response := invalidOrExpiredResponse, state := st } := by
  unfold verifyPhoneCode
  simp [hcfg, hnone]

/-- C1: with the provider not configured and a single authoritative row
(unexpired, unverified, matching phone and code), verify-code succeeds
exactly once: the first call answers 200 and stores the row with
`verified_at = now`, and a second call with the same phone and code at a
later time fails with the invalid-or-expired error, because the row no
longer matches the verified_at-is-null predicate. -/
theorem verify_code_succeeds_exactly_once
    (cfg : TwilioConfig) (check1 check2 : TwilioCheckOutcome)
    (st : AuthState) (now now2 : Int) (phone code : String)
    (fn1 fn2 : Option String) (v : PhoneVerification)
    (hcfg : twilioConfigured cfg = false)
    (hv : v ∈ st.verifications)
    (hm : localMatch phone code now v)
    (huniq : ∀ w ∈ st.verifications, localMatch phone code now w → w = v)
    (hle : now ≤ now2) :
    (verifyPhoneCode cfg check1 st now phone code fn1).response.status = 200 ∧
    (verifyPhoneCode cfg check1 st now phone code fn1).response.success = true ∧
    { v with verified_at := some now } ∈
      (verifyPhoneCode cfg check1 st now phone code fn1).state.verifications ∧
    (verifyPhoneCode cfg check2 (verifyPhoneCode cfg check1 st now phone code fn1).state
      now2 phone code fn2).response = invalidOrExpiredResponse := by
  have hfind : findLatestVerification phone code now st.verifications = some v := by
    cases hf : findLatestVerification phone code now st.verifications with
    | none =>
      exact absurd ((findLatest_eq_none_iff.mp hf) v hv) (by simp [hm])
    | some w =>
      obtain ⟨hwmem, hwm⟩ := findLatest_mem hf
      rw [huniq w hwmem hwm]
  have hrun : verifyPhoneCode cfg check1 st now phone code fn1 =
      finishVerified { st with verifications := markVerified v.id now st.verifications }
        now phone fn1 := by
    unfold verifyPhoneCode
    simp [hcfg, hfind]
  have hstv : (verifyPhoneCode cfg check1 st now phone code fn1).state.verifications =
      markVerified v.id now st.verifications := by
    rw [hrun, finishVerified_verifications]
  have hnone : findLatestVerification phone code now2
      (markVerified v.id now st.verifications) = none := by
    rw [findLatest_eq_none_iff]
    intro w' hw' hm'
    unfold markVerified at hw'
    obtain ⟨w, hw, hweq⟩ := List.mem_map.mp hw'
    by_cases hid : w.id = v.id
    · rw [if_pos hid] at hweq
      rw [← hweq] at hm'
      exact absurd hm'.2.2.2 (by simp)
    · rw [if_neg hid] at hweq
      rw [← hweq] at hm'
      have hmnow : localMatch phone code now w :=
        ⟨hm'.1, hm'.2.1, lt_of_le_of_lt hle hm'.2.2.1, hm'.2.2.2⟩
      exact hid (by rw [huniq w hw hmnow])
  refine ⟨by rw [hrun]; rfl, by rw [hrun]; rfl, ?_, ?_⟩
  · rw [hstv]
    unfold markVerified
    exact List.mem_map.mpr ⟨v, hv, by simp⟩
  · have h2 : verifyPhoneCode cfg check2
        (verifyPhoneCode cfg check1 st now phone code fn1).state now2 phone code fn2 =
        { response := invalidOrExpiredResponse,
          state := (verifyPhoneCode cfg check1 st now phone code fn1).state } :=
      verify_fallback_none cfg check2 _ now2 phone code fn2 hcfg (by rw [hstv]; exact hnone)
    rw [h2]

/-- C1 witness: on `st0` with `demoRow`, verifying "482913" at 1500000
succeeds once and fails at 1500001. -/
theorem verify_code_succeeds_exactly_once_witness :
    (verifyPhoneCode noTwilio (.raised 500) st0 1500000 "+15551234567" "482913" none).response.status = 200 ∧
    (verifyPhoneCode noTwilio (.raised 500) st0 1500000 "+15551234567" "482913" none).response.success = true ∧
    { demoRow with verified_at := some 1500000 } ∈
      (verifyPhoneCode noTwilio (.raised 500) st0 1500000 "+15551234567" "482913" none).state.verifications ∧
    (verifyPhoneCode noTwilio (.raised 500)
      (verifyPhoneCode noTwilio (.raised 500) st0 1500000 "+15551234567" "482913" none).state
      1500001 "+15551234567" "482913" none).response = invalidOrExpiredResponse :=
  verify_code_succeeds_exactly_once noTwilio (.raised 500) (.raised 500) st0 1500000 1500001
    "+15551234567" "482913" none none demoRow (by decide) (by decide) (by decide)
    (by decide) (by decide)

/-- C2: with the provider configured, the two provider failure types are
asymmetric: a returned non-approved decision fails the whole call at once
with the invalid-code error and an unchanged database, even when a valid
local fallback row exists; a provider call that raises behaves exactly
like the provider-not-configured run, i.e. it falls back to local
database verification. -/
theorem provider_failure_asymmetry
    (cfg : TwilioConfig) (s : String) (e : Nat) (check0 : TwilioCheckOutcome)
    (st : AuthState) (now : Int) (phone code : String) (fn : Option String)
    (hcfg : twilioConfigured cfg = true)
    (hs : s ≠ "approved")
    (_hrow : ∃ v ∈ st.verifications, localMatch phone code now v) :
    (verifyPhoneCode cfg (.decision s) st now phone code fn).response = invalidCodeResponse ∧
    (verifyPhoneCode cfg (.decision s) st now phone code fn).state = st ∧
    verifyPhoneCode cfg (.raised e) st now phone code fn =
      verifyPhoneCode noTwilio check0 st now phone code fn := by
  have hn : twilioConfigured noTwilio = false := rfl
  refine ⟨?_, ?_, ?_⟩ <;>
    · unfold verifyPhoneCode
      simp [hcfg, hs, hn]

/-- C2 witness: on `st0`, a "pending" decision fails with the
invalid-code error although `demoRow` is a valid fallback row, and a
raised 429 gives the same result as an unconfigured provider. -/
theorem provider_failure_asymmetry_witness :
    (verifyPhoneCode fullTwilio (.decision "pending") st0 1500000 "+15551234567" "482913" none).response = invalidCodeResponse ∧
    (verifyPhoneCode fullTwilio (.decision "pending") st0 1500000 "+15551234567" "482913" none).state = st0 ∧
    verifyPhoneCode fullTwilio (.raised 429) st0 1500000 "+15551234567" "482913" none =
      verifyPhoneCode noTwilio (.decision "approved") st0 1500000 "+15551234567" "482913" none :=
  provider_failure_asymmetry fullTwilio "pending" 429 (.decision "approved") st0 1500000
    "+15551234567" "482913" none (by decide) (by decide) (by decide)

/-- C4: with the provider not configured, verify-code fails with the
invalid-or-expired error and an unchanged database whenever every stored
row for this phone and code has already expired, even though the
submitted code value equals a stored one. -/
theorem verify_code_expired_fails
    (cfg : TwilioConfig) (check : TwilioCheckOutcome)
    (st : AuthState) (now : Int) (phone code : String) (fn : Option String)
    (hcfg : twilioConfigured cfg = false)
    (hexp : ∀ v ∈ st.verifications, v.phone = phone → v.code = code → v.expires_at ≤ now) :
    (verifyPhoneCode cfg check st now phone code fn).response = invalidOrExpiredResponse ∧
    (verifyPhoneCode cfg check st now phone code fn).state = st := by
  have hnone : findLatestVerification phone code now st.verifications = none := by
    rw [findLatest_eq_none_iff]
    intro v hv hm
    exact absurd hm.2.2.1 (not_lt.mpr (hexp v hv hm.1 hm.2.1))
  constructor <;>
    · unfold verifyPhoneCode
      simp [hcfg, hnone]

/-- C4 witness: at 1700000, after the demoRow expiry 1600000, verifying
the stored code "482913" fails with the invalid-or-expired error. -/
theorem verify_code_expired_fails_witness :
    (verifyPhoneCode noTwilio (.raised 500) st0 1700000 "+15551234567" "482913" none).response = invalidOrExpiredResponse ∧
    (verifyPhoneCode noTwilio (.raised 500) st0 1700000 "+15551234567" "482913" none).state = st0 :=
  verify_code_expired_fails noTwilio (.raised 500) st0 1700000 "+15551234567" "482913" none
    (by decide) (by decide)

/-- C5: with the provider configured and answering "approved", verify-code
succeeds while leaving every stored PhoneVerification row untouched (so
any null verified_at stays null), and the user find-or-create plus session
token issuance still happen. -/
theorem provider_approved_skips_local_rows
    (cfg : TwilioConfig) (st : AuthState) (now : Int) (phone code : String)
    (fn : Option String)
    (hcfg : twilioConfigured cfg = true) :
    (verifyPhoneCode cfg (.decision "approved") st now phone code fn).state.verifications = st.verifications ∧
    (verifyPhoneCode cfg (.decision "approved") st now phone code fn).response.status = 200 ∧
    (verifyPhoneCode cfg (.decision "approved") st now phone code fn).response.success = true ∧
    (verifyPhoneCode cfg (.decision "approved") st now phone code fn).response.token =
      some (generateToken (findOrCreateUserByPhone st now phone fn).1.id now) ∧
    ∃ u ∈ (verifyPhoneCode cfg (.decision "approved") st now phone code fn).state.users,
      u.phone = some phone ∧ u.phone_verified = true := by
  have hrun : verifyPhoneCode cfg (.decision "approved") st now phone code fn =
      finishVerified st now phone fn := by
    unfold verifyPhoneCode
    simp [hcfg]
  obtain ⟨humem, hupho, huver⟩ := findOrCreate_user st now phone fn
  refine ⟨?_, by rw [hrun]; rfl, by rw [hrun]; rfl, by rw [hrun]; rfl, ?_⟩
  · rw [hrun]
    exact finishVerified_verifications st now phone fn
  · rw [hrun]
    exact ⟨(findOrCreateUserByPhone st now phone fn).1, humem, hupho, huver⟩

/-- C5 witness: on `st0` with the provider approving, the rows are
untouched (`demoRow.verified_at` stays null), the call succeeds and a
token for the created user is issued. -/
theorem provider_approved_skips_local_rows_witness :
    (verifyPhoneCode fullTwilio (.decision "approved") st0 1500000 "+15551234567" "482913" (some "Alice")).state.verifications = st0.verifications ∧
    (verifyPhoneCode fullTwilio (.decision "approved") st0 1500000 "+15551234567" "482913" (some "Alice")).response.status = 200 ∧
    (verifyPhoneCode fullTwilio (.decision "approved") st0 1500000 "+15551234567" "482913" (some "Alice")).response.success = true ∧
    (verifyPhoneCode fullTwilio (.decision "approved") st0 1500000 "+15551234567" "482913" (some "Alice")).response.token =
      some (generateToken (findOrCreateUserByPhone st0 1500000 "+15551234567" (some "Alice")).1.id 1500000) ∧
    ∃ u ∈ (verifyPhoneCode fullTwilio (.decision "approved") st0 1500000 "+15551234567" "482913" (some "Alice")).state.users,
      u.phone = some "+15551234567" ∧ u.phone_verified = true :=
  provider_approved_skips_local_rows fullTwilio st0 1500000 "+15551234567" "482913"
    (some "Alice") (by decide)

/-- C7: for every random source value `r` in `[0, 1)`, the generated code
`Math.floor(100000 + r * 900000)` lies in `[100000, 999999]` and its
decimal representation has exactly 6 digits. -/
theorem generated_code_six_digits (r : ℚ) (h0 : 0 ≤ r) (h1 : r < 1) :
    100000 ≤ generateOtp r ∧ generateOtp r ≤ 999999 ∧
    (Nat.digits 10 (generateOtp r)).length = 6 := by
  have hlo : (100000 : ℤ) ≤ Int.floor ((100000 : ℚ) + r * 900000) := by
    rw [Int.le_floor]
    push_cast
    nlinarith
  have hhi : Int.floor ((100000 : ℚ) + r * 900000) < 1000000 := by
    rw [Int.floor_lt]
    push_cast
    nlinarith
  have hn1 : 100000 ≤ generateOtp r := by
    unfold generateOtp
    omega
  have hn2 : generateOtp r ≤ 999999 := by
    unfold generateOtp
    omega
  refine ⟨hn1, hn2, ?_⟩
  rw [Nat.digits_len 10 (generateOtp r) (by norm_num) (by omega)]
  have hlog : Nat.log 10 (generateOtp r) = 5 :=
    Nat.log_eq_of_pow_le_of_lt_pow (by norm_num; omega) (by norm_num; omega)
  omega

/-- C7 witness: at `r = 1/2` the generated code is 550000, a 6-digit
value inside the range. -/
theorem generated_code_six_digits_witness :
    (0 : ℚ) ≤ 1/2 ∧ (1 : ℚ)/2 < 1 ∧
    (100000 ≤ generateOtp (1/2) ∧ generateOtp (1/2) ≤ 999999 ∧
      (Nat.digits 10 (generateOtp (1/2))).length = 6) :=
  ⟨by norm_num, by norm_num,
    generated_code_six_digits (1/2) (by norm_num) (by norm_num)⟩

/-- C8 counterexample: the claim says every bearer-token-authenticated
endpoint answers 401 on a token that fails verification; but update-name
with a wrong-secret token answers 500 (the `jwt.verify` throw lands in
the generic catch of the handler), not 401. -/
theorem update_name_invalid_token_is_500_not_401 :
    (updateName "server-secret" (some badJwt) emptyAuthState "Alice").response.status = 500 ∧
    ¬ (updateName "server-secret" (some badJwt) emptyAuthState "Alice").response.status = 401 := by
  decide

/-- C8 (amended): a token failing verification yields 401 on the
middleware-gated profile routes and on the auth profile-fetch; update-name
answers 401 only for a missing token and 500 for a present token that
fails verification. -/
theorem bearer_token_failure_statuses
    (secret name : String) (t : Jwt) (ast : AuthState) (pst : ProfileState)
    (pb : PackageBody) (fb : PortfolioBody) (kb : KycBody) (now : Int)
    (hbad : jwtVerify secret t = none) :
    (postCreatePackage secret (some t) pst pb).response.status = 401 ∧
    (postCreatePortfolio secret (some t) pst fb).response.status = 401 ∧
    (postSubmitKyc secret (some t) pst kb now).response.status = 401 ∧
    (getAuthProfile secret (some t) ast).status = 401 ∧
    (updateName secret (some t) ast name).response.status = 500 ∧
    (updateName secret none ast name).response.status = 401 := by
  unfold postCreatePackage postCreatePortfolio postSubmitKyc getAuthProfile updateName
    authenticateToken
  simp [hbad]

/-- C8 witness: the wrong-secret token `badJwt` is rejected 401 by the
profile routes and the auth profile-fetch, while update-name answers 500
with it and 401 with no token at all. -/
theorem bearer_token_failure_statuses_witness :
    (postCreatePackage "server-secret" (some badJwt) emptyProfileState demoPackageBody).response.status = 401 ∧
    (postCreatePortfolio "server-secret" (some badJwt) emptyProfileState demoPortfolioBody).response.status = 401 ∧
    (postSubmitKyc "server-secret" (some badJwt) emptyProfileState demoKycBody 1000000).response.status = 401 ∧
    (getAuthProfile "server-secret" (some badJwt) emptyAuthState).status = 401 ∧
    (updateName "server-secret" (some badJwt) emptyAuthState "Alice").response.status = 500 ∧
    (updateName "server-secret" none emptyAuthState "Alice").response.status = 401 :=
  bearer_token_failure_statuses "server-secret" "Alice" badJwt emptyAuthState
    emptyProfileState demoPackageBody demoPortfolioBody demoKycBody 1000000 (by decide)

/-- C9 counterexample: the claim says a create-package request by a user
with no CreatorProfile row fails with HTTP status 404; but the handler
answers 400 "Creator profile not found". -/
theorem missing_profile_is_400_not_404 :
    (createPackage emptyProfileState 1 demoPackageBody).response.status = 400 ∧
    ¬ (createPackage emptyProfileState 1 demoPackageBody).response.status = 404 := by
  decide

/-- C9 (amended): an authenticated create-package, create-portfolio or
submit-kyc request by a user with no CreatorProfile row fails with HTTP
status 400 and error "Creator profile not found", and creates no
Package, PortfolioItem or KYC row (the database is unchanged). -/
theorem missing_creator_profile_rejected
    (st : ProfileState) (uid : Nat) (pb : PackageBody) (fb : PortfolioBody)
    (kb : KycBody) (now : Int)
    (hnone : findCreatorProfile st uid = none) :
    (createPackage st uid pb).response = profileNotFoundResponse ∧
    (createPackage st uid pb).state = st ∧
    (createPortfolio st uid fb).response = profileNotFoundResponse ∧
    (createPortfolio st uid fb).state = st ∧
    (submitKyc st uid kb now).response = profileNotFoundResponse ∧
    (submitKyc st uid kb now).state = st := by
  unfold createPackage createPortfolio submitKyc
  simp [hnone]

/-- C9 witness: with no creator profile stored, all three handlers answer
the 400 "Creator profile not found" response and leave the database
empty. -/
theorem missing_creator_profile_rejected_witness :
    (createPackage emptyProfileState 7 demoPackageBody).response = profileNotFoundResponse ∧
    (createPackage emptyProfileState 7 demoPackageBody).state = emptyProfileState ∧
    (createPortfolio emptyProfileState 7 demoPortfolioBody).response = profileNotFoundResponse ∧
    (createPortfolio emptyProfileState 7 demoPortfolioBody).state = emptyProfileState ∧
    (submitKyc emptyProfileState 7 demoKycBody 1000000).response = profileNotFoundResponse ∧
    (submitKyc emptyProfileState 7 demoKycBody 1000000).state = emptyProfileState :=
  missing_creator_profile_rejected emptyProfileState 7 demoPackageBody demoPortfolioBody
    demoKycBody 1000000 (by decide)

end Influmojo
